import Mathlib

/-!
Verification development for ScholarScout, a program-committee
recommendation system.  The repository ships a Next.js front end
(`FrontEnd/lib/api.ts`, `FrontEnd/app/layout.tsx`,
`FrontEnd/researcher(id)/page.tsx`) that talks to a ranking back end over
HTTP.  The front-end code is embedded here directly; the ranking core is
not part of the source tree, so it is modelled from the specification
(section 4 of the spec) where a claim depends on it.

JavaScript numbers are modelled as rationals (`ℚ`), with a separate
constructor for `NaN` where the front end can produce one.  JavaScript
string helpers (`trim`, `split`) are re-implemented structurally on
`List Char` so that all definitions evaluate inside the kernel.
-/

namespace ScholarScout

/-- Whitespace test used by the JavaScript `String.prototype.trim` model. -/
def isWs (c : Char) : Bool := c.isWhitespace

/-- Character-list trimming: drop whitespace from both ends. -/
def trimChars (l : List Char) : List Char :=
  ((l.dropWhile isWs).reverse.dropWhile isWs).reverse

/-- Models JavaScript `String.prototype.trim` (used throughout `Home.run`
in `FrontEnd/app/layout.tsx`). -/
def jsTrim (s : String) : String := String.mk (trimChars s.data)

/-- Splits a character list at every occurrence of `sep`, keeping empty
segments, accumulator style.  Models JavaScript `String.prototype.split`
with a single-character separator. -/
def splitOnChar (sep : Char) : List Char → List Char → List (List Char)
  | [], acc => [acc.reverse]
  | c :: rest, acc =>
    if c = sep then acc.reverse :: splitOnChar sep rest []
    else splitOnChar sep rest (c :: acc)

/-- Models JavaScript `s.split(",")`. -/
def jsSplit (s : String) : List String :=
  (splitOnChar ',' s.data []).map (fun l => String.mk l)

/-- Parses a non-empty all-digit character list as a natural number;
`none` otherwise. -/
def parseNatDigits (l : List Char) : Option Nat :=
  if l.isEmpty then none
  else if l.all Char.isDigit then
    some (l.foldl (fun a c => 10 * a + (c.toNat - 48)) 0)
  else none

/-- A JavaScript number: either `NaN` or a rational value. -/
inductive JsNumber where
  | nan : JsNumber
  | num : ℚ → JsNumber
deriving DecidableEq

/-- Models the JavaScript `Number()` conversion on strings as used by
`Home.run`: the input is trimmed, the empty string yields `0`, an optional
sign followed by decimal digits (with an optional fractional part) yields
the corresponding rational, anything else yields `NaN`.  Exotic inputs
(exponent notation, hex literals, forms like `".5"`) are outside the model;
no claim evaluates them. -/
def jsNumber (s : String) : JsNumber :=
  let t := jsTrim s
  if t.data.isEmpty then JsNumber.num 0
  else
    let signBody : ℚ × List Char :=
      match t.data with
      | '-' :: rest => (-1, rest)
      | '+' :: rest => (1, rest)
      | l => (1, l)
    match splitOnChar '.' signBody.2 [] with
    | [w] =>
      match parseNatDigits w with
      | some n => JsNumber.num (signBody.1 * (n : ℚ))
      | none => JsNumber.nan
    | [w, f] =>
      match parseNatDigits w, parseNatDigits f with
      | some n, some m =>
        JsNumber.num (signBody.1 * ((n : ℚ) + (m : ℚ) / ((10 : ℚ) ^ f.length)))
      | _, _ => JsNumber.nan
    | _ => JsNumber.nan

/-- The wire-level recommendation query built by the search form
(`RecommendationQuery` in `FrontEnd/lib/api.ts`, as constructed by
`Home.run`). -/
structure RecommendationQuery where
  conference_series : Option String
  year : Option JsNumber
  topics : List String
  years_back : JsNumber
deriving DecidableEq

/-- The topics list built by `Home.run` in `FrontEnd/app/layout.tsx`:
`topics.split(",").map((t) => t.trim()).filter(Boolean)`. -/
def parseTopics (s : String) : List String :=
  ((jsSplit s).map jsTrim).filter (fun t => t != "")

/-- The payload object built by `Home.run` in `FrontEnd/app/layout.tsx`
from the four text fields of the search form. -/
def mkPayload (conference year yearsBack topics : String) : RecommendationQuery :=
  { conference_series := if jsTrim conference = "" then none else some (jsTrim conference)
  , year := if jsTrim year = "" then none else some (jsNumber (jsTrim year))
  , topics := parseTopics topics
  , years_back := if jsTrim yearsBack = "" then JsNumber.num 3 else jsNumber (jsTrim yearsBack) }

/-- `clamp01` from `FrontEnd/app/layout.tsx`:
`Math.max(0, Math.min(1, x))`. -/
def clamp01 (x : ℚ) : ℚ := max 0 (min 1 x)

/-- The bar-width fraction used by the `Progress` component in
`FrontEnd/app/layout.tsx` (`const v = clamp01(value)`; the bar is
`v * 100%` wide). -/
def progressWidth (value : ℚ) : ℚ := clamp01 value

/-- The numeric value shown next to each breakdown bar by
`ScoreBreakdownView`: the raw component value `Number(b[r.k])` is passed to
the formatter, not its clamped version. -/
def displayedValue (x : ℚ) : ℚ := x

/-- An HTTP response as observed by the `request` helper in
`FrontEnd/lib/api.ts`: status code, body text, and the body parsed as JSON
of type `α`. -/
structure HttpResponse (α : Type) where
  status : Nat
  bodyText : String
  json : α

/-- The Fetch API `Response.ok` flag: status in the range 200–299. -/
def responseOk {α : Type} (res : HttpResponse α) : Bool :=
  decide (200 ≤ res.status) && decide (res.status < 300)

/-- The `request` helper in `FrontEnd/lib/api.ts`: on a non-ok response it
throws `Error` with message `API ${res.status}: ${text}`; on an ok response
it returns the parsed JSON body. -/
def request {α : Type} (res : HttpResponse α) : Except String α :=
  if responseOk res then Except.ok res.json
  else Except.error ("API " ++ toString res.status ++ ": " ++ res.bodyText)

/-- `s` contains `sub` as a contiguous substring. -/
def containsSub (s sub : String) : Prop :=
  ∃ pre post, s = pre ++ sub ++ post

/-- The request path used by `getResearcher` in `FrontEnd/lib/api.ts`:
`/researcher/${id}`. -/
def researcherPath (rid : Int) : String := "/researcher/" ++ toString rid

/-- The researcher-detail route documented in `src/README.md` under "API
Endpoints (Quick Reference)": `GET /researchers/{researcher_id}`. -/
def readmeResearcherPath (rid : Int) : String := "/researchers/" ++ toString rid

/-- `PCHistoryItem` from `FrontEnd/lib/api.ts`. -/
structure PCHistoryItem where
  conference_series : String
  year : Int
  role : String
deriving DecidableEq

/-- `PublicationItem` from `FrontEnd/lib/api.ts`. -/
structure PublicationItem where
  title : String
  year : Option Int
  venue : Option String
deriving DecidableEq

/-- `ResearcherDetail` from `FrontEnd/lib/api.ts`. -/
structure ResearcherDetail where
  id : Int
  full_name : String
  affiliation : Option String
  country : Option String
  citation_count : Option Int
  h_index : Option Int
  topics : List String
  pc_history : List PCHistoryItem
  recent_publications : List PublicationItem
  person_profile_url : Option String
deriving DecidableEq

/-- The PC-history list rendered by `ResearcherPage` in
`FrontEnd/researcher(id)/page.tsx`:
`(r.pc_history || []).slice(0, 20)`. -/
def renderedPCHistory (r : ResearcherDetail) : List PCHistoryItem :=
  r.pc_history.take 20

/-- The publication list rendered by `ResearcherPage`:
`(r.recent_publications || [])`, mapped without slicing. -/
def renderedPublications (r : ResearcherDetail) : List PublicationItem :=
  r.recent_publications

/-- The profile link rendered by `ResearcherPage`:
`r.person_profile_url`, used as the anchor href unchanged. -/
def renderedProfileUrl (r : ResearcherDetail) : Option String :=
  r.person_profile_url

/-- `ResearcherShort` from `FrontEnd/lib/api.ts`. -/
structure ResearcherShort where
  id : Int
  full_name : String
  affiliation : Option String
  country : Option String
  citation_count : Option Int
  h_index : Option Int
  topics : List String
deriving DecidableEq

/-- `ScoreBreakdown` from `FrontEnd/lib/api.ts`: the eight per-signal
component values. -/
structure ScoreBreakdown where
  topic_sim : ℚ
  semantic_score : ℚ
  pub_recency_score : ℚ
  pc_recency_score : ℚ
  impact_score : ℚ
  pagerank_score : ℚ
  experience_score : ℚ
  newcomer_score : ℚ
deriving DecidableEq

/-- `RecommendationItem` from `FrontEnd/lib/api.ts`. -/
structure RecommendationItem where
  researcher : ResearcherShort
  score : ℚ
  score_breakdown : ScoreBreakdown
deriving DecidableEq

/-- The part of `RecommendationResponse` consumed by the page
(`res.results`); the query echo field is not read by `Home.run`. -/
structure RecommendationResponse where
  results : List RecommendationItem
deriving DecidableEq

/-- The page state touched by `Home.run`: the `loading`, `error` and
`items` React state cells. -/
structure HomeState where
  loading : Bool
  error : Option String
  items : List RecommendationItem
deriving DecidableEq

/-- The `Home.run` handler in `FrontEnd/app/layout.tsx` as a state
transition: on success it stores the results and clears the error, on
failure it stores the failure message and empties the results; the
`finally` block clears the loading flag on both paths. -/
def runHandler (outcome : Except String RecommendationResponse) (_s : HomeState) :
    HomeState :=
  match outcome with
  | Except.ok res => { loading := false, error := none, items := res.results }
  | Except.error e => { loading := false, error := some e, items := [] }

/-- Modelled from the spec: `RecommendationQuery` as consumed by the
ranking core (spec §3, §6), whose implementation (`backend/ranking.py`) is
not in the source tree: optional conference series, optional target year,
topic strings, and a `years_back` recency window defaulting to 3. -/
structure CoreQuery where
  conference_series : Option String
  year : Option Int
  topics : List String
  years_back : Int
deriving DecidableEq

/-- Modelled from the spec: the researcher record read by the ranking core
(spec §3 "Researcher", "PCMembership", "Publication"), whose storage and
ingestion layers are not in the source tree.  `memberships` lists
(series, year) pairs of PC service; `semanticSim` is the externally
precomputed embedding similarity for the current query (spec §1: the core
only consumes precomputed vectors/similarities), `none` when the
researcher has no embedding. -/
structure ResearcherRec where
  id : Int
  full_name : String
  affiliation : Option String
  country : Option String
  topics : List String
  works_count : Nat
  citation_count : Nat
  h_index : Nat
  pubYears : List Int
  memberships : List (String × Int)
  semanticSim : Option ℚ
deriving DecidableEq

/-- Modelled from the spec: the `ResearcherSummary` projection placed in
each result (spec §6). -/
def toShort (r : ResearcherRec) : ResearcherShort :=
  { id := r.id, full_name := r.full_name, affiliation := r.affiliation
  , country := r.country, citation_count := some (r.citation_count : Int)
  , h_index := some (r.h_index : Int), topics := r.topics }

/-- Modelled from the spec: the nodes of the co-service graph (spec §3,
§4.1) — researchers with at least one PC membership; isolated researchers
are excluded. -/
def graphNodes (snap : List ResearcherRec) : List Int :=
  ((snap.filter (fun r => !r.memberships.isEmpty)).map (fun r => r.id)).dedup

/-- Modelled from the spec: the distinct editions a researcher identifier
served on, per the membership records of the snapshot. -/
def membershipsOf (snap : List ResearcherRec) (i : Int) : List (String × Int) :=
  (((snap.filter (fun r => r.id == i)).map (fun r => r.memberships)).flatten).dedup

/-- Modelled from the spec: co-service edge weight (spec §4.1) — the
number of editions the two researchers jointly served on; no self-loops. -/
def edgeWeight (snap : List ResearcherRec) (i j : Int) : Nat :=
  if i = j then 0
  else ((membershipsOf snap i).filter
    (fun e => (membershipsOf snap j).contains e)).length

/-- Modelled from the spec: weighted degree (spec §4.2) — the sum of
incident edge weights, used as the PageRank normalization denominator. -/
def degreeOf (snap : List ResearcherRec) (i : Int) : Nat :=
  ((graphNodes snap).map (fun j => edgeWeight snap i j)).sum

/-- Modelled from the spec: the recommended PageRank damping factor 0.85
(spec §4.2). -/
def prDamping : ℚ := 85 / 100

/-- Modelled from the spec: the PageRank L1 convergence threshold 1e-6
(spec §4.2). -/
def prEps : ℚ := 1 / 1000000

/-- Modelled from the spec: the PageRank iteration cap 100 (spec §4.2). -/
def prMaxIter : Nat := 100

/-- Looks a researcher identifier up in a score vector; 0 when absent
(spec §4.4f: researchers absent from the graph get 0). -/
def scoreLookup (scores : List (Int × ℚ)) (i : Int) : ℚ :=
  match scores.find? (fun p => p.1 == i) with
  | some p => p.2
  | none => 0

/-- Modelled from the spec: one PageRank power-iteration step over the
weighted undirected co-service graph (spec §4.2):
`score[v] = (1-d)/N + d * Σ score[u]*w(u,v)/deg(u)`. -/
def prStep (snap : List ResearcherRec) (scores : List (Int × ℚ)) :
    List (Int × ℚ) :=
  let nodes := graphNodes snap
  let n : ℚ := (nodes.length : ℚ)
  nodes.map (fun v =>
    (v, (1 - prDamping) / n +
        prDamping * (nodes.map (fun u =>
          let w := edgeWeight snap u v
          if w = 0 then 0
          else scoreLookup scores u * (w : ℚ) / (degreeOf snap u : ℚ))).sum))

/-- L1 distance between two score vectors over the keys of the first. -/
def l1Diff (a b : List (Int × ℚ)) : ℚ :=
  (a.map (fun p => |p.2 - scoreLookup b p.1|)).sum

/-- Modelled from the spec: the PageRank iteration loop (spec §4.2) —
iterate until the L1 change falls below `prEps` or the fuel runs out,
whichever first. -/
def prLoop (snap : List ResearcherRec) : Nat → List (Int × ℚ) → List (Int × ℚ)
  | 0, s => s
  | Nat.succ k, s =>
    let s2 := prStep snap s
    if l1Diff s2 s < prEps then s2 else prLoop snap k s2

/-- Modelled from the spec: the Centrality Cache's PageRank computation
(spec §4.2), started from the uniform distribution over graph nodes. -/
def pagerank (snap : List ResearcherRec) : List (Int × ℚ) :=
  let nodes := graphNodes snap
  if nodes.isEmpty then []
  else prLoop snap prMaxIter (nodes.map (fun v => (v, 1 / (nodes.length : ℚ))))

/-- Character-wise lowercasing of a string, used to compare strings up to
case. -/
def lowerStr (s : String) : String := String.mk (s.data.map Char.toLower)

/-- Modelled from the spec: query/researcher topic normalization (spec §3:
topic lists are case-normalized and deduplicated for comparison). -/
def normTopics (l : List String) : List String :=
  (l.map lowerStr).dedup

/-- Modelled from the spec: `topic_sim` (spec §4.4a) — Jaccard overlap of
the normalized topic sets, 0 when either set is empty. -/
def topicSim (qTopics rTopics : List String) : ℚ :=
  let a := normTopics qTopics
  let b := normTopics rTopics
  if a.isEmpty || b.isEmpty then 0
  else ((a.filter (fun t => b.contains t)).length : ℚ)
    / (((a ++ b).dedup).length : ℚ)

/-- Modelled from the spec: `semantic_score` (spec §4.4b) — the
precomputed embedding similarity; a missing embedding yields 0, not an
error. -/
def semanticScore (r : ResearcherRec) : ℚ := r.semanticSim.getD 0

/-- Modelled from the spec: the recency decay shared by
`pub_recency_score` and `pc_recency_score` (spec §4.4c/§4.4d) — a linear
decay of the gap between the target year and the most recent activity year
inside the window; no activity in the window (or no target year) yields 0.
The exact curve is an implementation choice the spec leaves open
(spec §9); linear-to-zero at the window edge is used here. -/
def recencyScore (target : Option Int) (yearsBack : Int) (years : List Int) : ℚ :=
  match target with
  | none => 0
  | some y =>
    let recent := years.filter (fun yr => decide (y - yearsBack ≤ yr) && decide (yr ≤ y))
    match recent.max? with
    | none => 0
    | some m => 1 - ((y - m : Int) : ℚ) / ((max yearsBack 1 : Int) : ℚ)

/-- Min-max normalization of `v` against a population of values; 0 when
the population is degenerate (spec §4.4e: impact is normalized relative to
the candidate population). -/
def minMaxNorm (vals : List ℚ) (v : ℚ) : ℚ :=
  match vals.max?, vals.min? with
  | some hi, some lo => if hi = lo then 0 else (v - lo) / (hi - lo)
  | _, _ => 0

/-- Modelled from the spec: `impact_score` (spec §4.4e) — the average of
the min-max-normalized citation count, works count and h-index over the
current candidate set. -/
def impactScore (cands : List ResearcherRec) (r : ResearcherRec) : ℚ :=
  (minMaxNorm (cands.map (fun c => (c.citation_count : ℚ))) (r.citation_count : ℚ)
   + minMaxNorm (cands.map (fun c => (c.works_count : ℚ))) (r.works_count : ℚ)
   + minMaxNorm (cands.map (fun c => (c.h_index : ℚ))) (r.h_index : ℚ)) / 3

/-- Modelled from the spec: `experience_score` (spec §4.4g) — capped-linear
saturation in the number of distinct PC memberships. -/
def experienceScore (r : ResearcherRec) : ℚ :=
  min 1 ((r.memberships.dedup.length : ℚ) / 10)

/-- Modelled from the spec: `newcomer_score` (spec §4.4h) — rewards
researchers with little PC history but strong topic or impact signals;
independently computed from `experience_score` rather than its
complement. -/
def newcomerScore (cands : List ResearcherRec) (qTopics : List String)
    (r : ResearcherRec) : ℚ :=
  (1 - min 1 ((r.memberships.dedup.length : ℚ) / 3)) *
    max (topicSim qTopics r.topics) (impactScore cands r)

/-- Modelled from the spec: the per-candidate `ScoreBreakdown` produced by
the eight signal computers (spec §4.4). -/
def breakdownFor (q : CoreQuery) (cands : List ResearcherRec)
    (pr : List (Int × ℚ)) (r : ResearcherRec) : ScoreBreakdown :=
  { topic_sim := topicSim q.topics r.topics
  , semantic_score := semanticScore r
  , pub_recency_score := recencyScore q.year q.years_back r.pubYears
  , pc_recency_score := recencyScore q.year q.years_back (r.memberships.map (fun e => e.2))
  , impact_score := impactScore cands r
  , pagerank_score := scoreLookup pr r.id
  , experience_score := experienceScore r
  , newcomer_score := newcomerScore cands q.topics r }

/-- The fixed weight vector of the Score Aggregator (spec §4.5, §9: an
explicit, versioned configuration structure of named weights). -/
structure Weights where
  topic_sim : ℚ
  semantic_score : ℚ
  pub_recency_score : ℚ
  pc_recency_score : ℚ
  impact_score : ℚ
  pagerank_score : ℚ
  experience_score : ℚ
  newcomer_score : ℚ

/-- Modelled from the spec: the published weight vector (spec §4.5 fixes
that one exists and is versioned; the concrete values are a deployment
choice). -/
def weights : Weights :=
  { topic_sim := 3, semantic_score := 2, pub_recency_score := 1
  , pc_recency_score := 1, impact_score := 2, pagerank_score := 3 / 2
  , experience_score := 1, newcomer_score := 1 / 2 }

/-- Modelled from the spec: `aggregate(breakdown) -> total` (spec §4.5) —
the fixed-weight linear recombination of the eight components. -/
def aggregate (w : Weights) (b : ScoreBreakdown) : ℚ :=
  w.topic_sim * b.topic_sim + w.semantic_score * b.semantic_score
  + w.pub_recency_score * b.pub_recency_score
  + w.pc_recency_score * b.pc_recency_score
  + w.impact_score * b.impact_score + w.pagerank_score * b.pagerank_score
  + w.experience_score * b.experience_score
  + w.newcomer_score * b.newcomer_score

/-- Modelled from the spec: the Candidate Selector (spec §4.3).  A given
conference series restricts to researchers with membership history in that
series (an empty match yields an explicit empty candidate set); topics are
a soft, ranking-only signal (policy (a) of spec §4.3); `year` and
`years_back` never exclude candidates. -/
def selectCandidates (q : CoreQuery) (snap : List ResearcherRec) :
    List ResearcherRec :=
  match q.conference_series with
  | none => snap
  | some s => snap.filter (fun r => r.memberships.any (fun e => e.1 == s))

/-- Modelled from the spec: the deterministic ranking order (spec §4.6) —
total score descending with ascending researcher identifier as the
tie-break. -/
def rankLE (a b : RecommendationItem) : Prop :=
  b.score < a.score ∨ (b.score = a.score ∧ a.researcher.id ≤ b.researcher.id)

instance rankLEDec : DecidableRel rankLE := fun a b => by
  unfold rankLE
  infer_instance

/-- Modelled from the spec: the scored (pre-sort) result list — every
selected candidate paired with its breakdown and the aggregated total
(spec §4.5, §4.6). -/
def scoredItems (q : CoreQuery) (snap : List ResearcherRec) :
    List RecommendationItem :=
  let cands := selectCandidates q snap
  let pr := pagerank snap
  cands.map (fun r =>
    let b := breakdownFor q cands pr r
    { researcher := toShort r, score := aggregate weights b, score_breakdown := b })

/-- Modelled from the spec: the response of the Ranking Service (spec §6),
echoing the query alongside the ordered results. -/
structure CoreResponse where
  query : CoreQuery
  results : List RecommendationItem
deriving DecidableEq

/-- Modelled from the spec: the Ranking Service (spec §4.6), whose
implementation is not in the source tree — select, score, aggregate, and
sort by total score descending with the identifier tie-break. -/
def recommendRun (q : CoreQuery) (snap : List ResearcherRec) : CoreResponse :=
  { query := q, results := (scoredItems q snap).insertionSort rankLE }

/-- Modelled from the spec: the input-validation layer of the recommend
endpoint (spec §7): a malformed query — negative `years_back` — is
rejected before candidate selection with a descriptive failure, never
silently clamped. -/
def recommendEndpoint (q : CoreQuery) (snap : List ResearcherRec) :
    Except String CoreResponse :=
  if q.years_back < 0 then
    Except.error ("Invalid query: years_back must be a positive integer, got "
      ++ toString q.years_back)
  else Except.ok (recommendRun q snap)

/-- A concrete query: no series, no target year, no topics, default
window. -/
def q0 : CoreQuery :=
  { conference_series := none, year := none, topics := [], years_back := 3 }

/-- A concrete researcher record with no memberships and no stats. -/
def r0 : ResearcherRec :=
  { id := 1, full_name := "Ada", affiliation := none, country := none
  , topics := [], works_count := 0, citation_count := 0, h_index := 0
  , pubYears := [], memberships := [], semanticSim := none }

/-- A one-researcher data snapshot. -/
def snap0 : List ResearcherRec := [r0]

/-- An all-zero breakdown, used as a list-access default. -/
def defaultBreakdown : ScoreBreakdown := ⟨0, 0, 0, 0, 0, 0, 0, 0⟩

/-- A default result item, used as a list-access default. -/
def defaultItem : RecommendationItem :=
  { researcher := toShort r0, score := 0, score_breakdown := defaultBreakdown }

/-- The first result returned for `q0` over `snap0`. -/
def item0 : RecommendationItem :=
  ((recommendRun q0 snap0).results).headD defaultItem

/-- A concrete malformed query with negative `years_back`. -/
def qneg : CoreQuery :=
  { conference_series := none, year := none, topics := [], years_back := -1 }

/-- A concrete non-ok HTTP response. -/
def res404 : HttpResponse Nat := { status := 404, bodyText := "Not Found", json := 0 }

/-- A concrete ok HTTP response. -/
def res200 : HttpResponse Nat := { status := 200, bodyText := "", json := 5 }

/-- A concrete PC-history entry. -/
def pcItem : PCHistoryItem :=
  { conference_series := "ICSE", year := 2024, role := "PC member" }

/-- A concrete researcher detail whose PC history has 21 entries. -/
def detail21 : ResearcherDetail :=
  { id := 7, full_name := "Grace", affiliation := none, country := none
  , citation_count := none, h_index := none, topics := []
  , pc_history := List.replicate 21 pcItem
  , recent_publications := [], person_profile_url := none }

/-- A concrete page state before a search. -/
def s9 : HomeState := { loading := true, error := none, items := [] }

/-- C1: every result returned by the recommendation operation carries a
total score equal to the fixed-weight recombination of the eight fields of
its own score breakdown with the published weight vector (explainability
round-trip). -/
theorem c1_score_recombination (q : CoreQuery) (snap : List ResearcherRec)
    (it : RecommendationItem) (hmem : it ∈ (recommendRun q snap).results) :
    it.score = aggregate weights it.score_breakdown := by
  have h2 : it ∈ scoredItems q snap :=
    (List.perm_insertionSort rankLE (scoredItems q snap)).mem_iff.mp hmem
  obtain ⟨r, hr, hfr⟩ := List.mem_map.mp h2
  subst hfr
  rfl

theorem c1_score_recombination_witness :
    item0.score = aggregate weights item0.score_breakdown :=
  c1_score_recombination q0 snap0 item0 (List.Mem.head _)

/-- C2: two runs of the recommendation operation on the same query and the
same data snapshot return identical result lists, element for element and
in the same order. -/
theorem c2_deterministic_ranking (q : CoreQuery) (snap : List ResearcherRec)
    (out1 out2 : CoreResponse)
    (h1 : out1 = recommendRun q snap) (h2 : out2 = recommendRun q snap) :
    out1 = out2 := h1.trans h2.symm

theorem c2_deterministic_ranking_witness :
    recommendRun q0 snap0 = recommendRun q0 snap0 :=
  c2_deterministic_ranking q0 snap0 (recommendRun q0 snap0)
    (recommendRun q0 snap0) rfl rfl

/-- C3 as stated is false: for the form input `"AI,ai"` the topics list
built by `Home.run` is `["AI", "ai"]`, which contains two entries equal up
to case — the form neither case-normalizes nor deduplicates. -/
theorem c3_topics_counterexample :
    ¬ List.Pairwise (fun a b => lowerStr a ≠ lowerStr b) (parseTopics "AI,ai") := by
  decide

/-- C3 amended: the topics list carried by the query is exactly the
comma-split form input with each entry trimmed and empty entries dropped;
no case normalization and no deduplication is performed. -/
theorem c3_topics_amended (s t : String) (hmem : t ∈ parseTopics s) :
    t ≠ "" ∧ ∃ u, u ∈ jsSplit s ∧ t = jsTrim u := by
  have h1 := List.mem_filter.mp hmem
  obtain ⟨u, hu, hfu⟩ := List.mem_map.mp h1.1
  exact ⟨bne_iff_ne.mp h1.2, u, hu, hfu.symm⟩

theorem c3_topics_amended_witness :
    "AI" ≠ "" ∧ ∃ u, u ∈ jsSplit "AI,ai" ∧ "AI" = jsTrim u :=
  c3_topics_amended "AI,ai" "AI" (by decide)

/-- C4: a query with negative `years_back` is rejected by the recommend
endpoint with a descriptive failure naming the offending field and value,
and no ranking result is ever produced for it. -/
theorem c4_negative_years_back_rejected (q : CoreQuery)
    (snap : List ResearcherRec) (h : q.years_back < 0) :
    recommendEndpoint q snap =
      Except.error ("Invalid query: years_back must be a positive integer, got "
        ++ toString q.years_back)
    ∧ ∀ resp : CoreResponse, recommendEndpoint q snap ≠ Except.ok resp := by
  have he : recommendEndpoint q snap =
      Except.error ("Invalid query: years_back must be a positive integer, got "
        ++ toString q.years_back) := by
    unfold recommendEndpoint
    rw [if_pos h]
  refine ⟨he, fun resp hc => ?_⟩
  rw [he] at hc
  exact Except.noConfusion hc

theorem c4_negative_years_back_rejected_witness :
    recommendEndpoint qneg snap0 =
      Except.error ("Invalid query: years_back must be a positive integer, got "
        ++ toString qneg.years_back) :=
  (c4_negative_years_back_rejected qneg snap0 (by decide)).1

/-- C5: whenever the years-back form field trims to the empty string, the
payload built by `Home.run` carries `years_back = 3`. -/
theorem c5_default_years_back (conference year yearsBack topics : String)
    (h : jsTrim yearsBack = "") :
    (mkPayload conference year yearsBack topics).years_back = JsNumber.num 3 := by
  show (if jsTrim yearsBack = "" then JsNumber.num 3
        else jsNumber (jsTrim yearsBack)) = JsNumber.num 3
  rw [if_pos h]

theorem c5_default_years_back_witness :
    (mkPayload "ICSE" "2026" "   " "testing").years_back = JsNumber.num 3 :=
  c5_default_years_back "ICSE" "2026" "   " "testing" (by decide)

/-- C6: the `request` helper rejects every non-ok HTTP response with an
error whose message contains the status code and the response body text —
a failure distinct from an empty result — and returns the parsed JSON body
for every ok response. -/
theorem c6_request_error_contract {α : Type} (res : HttpResponse α) :
    (responseOk res = false →
        request res =
          Except.error ("API " ++ toString res.status ++ ": " ++ res.bodyText)
        ∧ containsSub ("API " ++ toString res.status ++ ": " ++ res.bodyText)
            (toString res.status)
        ∧ containsSub ("API " ++ toString res.status ++ ": " ++ res.bodyText)
            res.bodyText)
    ∧ (responseOk res = true → request res = Except.ok res.json) := by
  constructor
  · intro h
    refine ⟨?_, ⟨"API ", ": " ++ res.bodyText, ?_⟩,
      ⟨"API " ++ toString res.status ++ ": ", "", ?_⟩⟩
    · simp [request, h]
    · rw [String.append_assoc]
    · rw [String.append_empty]
  · intro h
    simp [request, h]

theorem c6_request_error_contract_witness :
    request res404 =
      Except.error ("API " ++ toString res404.status ++ ": " ++ res404.bodyText)
    ∧ request res200 = Except.ok res200.json :=
  ⟨((c6_request_error_contract res404).1 rfl).1,
   (c6_request_error_contract res200).2 rfl⟩

/-- C7 as stated is false: for a researcher detail with 21 PC-history
entries, the detail page renders only the first 20
(`slice(0, 20)` in `ResearcherPage`), a truncation. -/
theorem c7_detail_counterexample :
    renderedPCHistory detail21 ≠ detail21.pc_history := by decide

/-- C7 amended: the detail page presents the PC history in its original
order truncated to the first 20 entries (no ranking or reordering), and
presents the recent publications and the profile URL unmodified. -/
theorem c7_detail_amended (r : ResearcherDetail) :
    renderedPCHistory r = r.pc_history.take 20
    ∧ renderedPCHistory r ++ r.pc_history.drop 20 = r.pc_history
    ∧ renderedPublications r = r.recent_publications
    ∧ renderedProfileUrl r = r.person_profile_url :=
  ⟨rfl, List.take_append_drop 20 r.pc_history, rfl, rfl⟩

/-- C8: `clamp01` is exactly `max 0 (min 1 x)`, so the `Progress` bar
width always lies in `[0, 1]`, is `0` for every non-positive component
value, and in particular a semantic score in `[-1, 0)` renders as a
zero-width bar while its numeric value is displayed unchanged. -/
theorem c8_clamp_progress (x : ℚ) :
    clamp01 x = max 0 (min 1 x)
    ∧ 0 ≤ progressWidth x ∧ progressWidth x ≤ 1
    ∧ (x ≤ 0 → progressWidth x = 0)
    ∧ (-1 ≤ x → x < 0 → progressWidth x = 0 ∧ displayedValue x = x) := by
  refine ⟨rfl, le_max_left 0 (min 1 x), ?_, ?_, ?_⟩
  · exact max_le zero_le_one (min_le_left 1 x)
  · intro hx
    exact max_eq_left (le_trans (min_le_right 1 x) hx)
  · intro _ hx
    exact ⟨max_eq_left (le_trans (min_le_right 1 x) hx.le), rfl⟩

theorem c8_clamp_progress_witness :
    progressWidth (-1/2 : ℚ) = 0 ∧ displayedValue (-1/2 : ℚ) = -1/2 :=
  (c8_clamp_progress (-1/2)).2.2.2.2 (by norm_num) (by norm_num)

/-- C9: when the recommend call fails, `Home.run` leaves the page with an
empty results list and the failure's message as the error state; and on
every path the loading flag is false once the handler completes. -/
theorem c9_run_failure_state (outcome : Except String RecommendationResponse)
    (s : HomeState) :
    (runHandler outcome s).loading = false
    ∧ ∀ e : String, outcome = Except.error e →
        (runHandler outcome s).items = [] ∧ (runHandler outcome s).error = some e := by
  cases outcome with
  | ok res => exact ⟨rfl, fun e he => Except.noConfusion he⟩
  | error e0 =>
    refine ⟨rfl, fun e he => ?_⟩
    injection he with h
    subst h
    exact ⟨rfl, rfl⟩

theorem c9_run_failure_state_witness :
    (runHandler (Except.error "API 500: boom") s9).loading = false
    ∧ (runHandler (Except.error "API 500: boom") s9).items = []
    ∧ (runHandler (Except.error "API 500: boom") s9).error = some "API 500: boom" :=
  ⟨(c9_run_failure_state (Except.error "API 500: boom") s9).1,
   ((c9_run_failure_state (Except.error "API 500: boom") s9).2 "API 500: boom" rfl).1,
   ((c9_run_failure_state (Except.error "API 500: boom") s9).2 "API 500: boom" rfl).2⟩

/-- C10: `getResearcher` requests the path `/researcher/{id}` (singular),
which differs from the `/researchers/{researcher_id}` route documented in
the repository README, for every identifier. -/
theorem c10_researcher_path (rid : Int) :
    researcherPath rid = "/researcher/" ++ toString rid
    ∧ researcherPath rid ≠ readmeResearcherPath rid := by
  refine ⟨rfl, fun h => ?_⟩
  have hl := congrArg String.length h
  unfold researcherPath readmeResearcherPath at hl
  rw [String.length_append, String.length_append] at hl
  have h1 : "/researcher/".length = 12 := by decide
  have h2 : "/researchers/".length = 13 := by decide
  rw [h1, h2] at hl
  omega

end ScholarScout
